import Mathlib

/-!
Verification of the spindown daemon's device protocol abstraction and
power-state transition engine, shallowly embedded from the Python source
(`disk.py`, `diskstats.py`, `daemon.py`).

Conventions of the embedding:
* Python byte buffers become `List Nat` (one entry per byte); indexing
  `data[i]` becomes `List.get?` (a short buffer in Python raises, here it
  yields `none`); the slice `data[a:b]` becomes `pySlice`.
* `struct.unpack(">H", ...)` / `">I"` become `unpackBE16` / `unpackBE32`,
  which fail (`none`) unless the slice has exactly the right width,
  mirroring `struct.error`.
* Python float division `x / 1000.0` on these integral inputs is modelled
  exactly in `ℚ`.
* Mutation of `self` becomes explicit state passing; a Python method that
  can raise returns an `Option`/`Except`.
* Python's substring test `pat in s` is `strIn pat s`.
-/

namespace Spindown

/-- `PowerState(IntEnum)` from disk.py: ordered sleep tiers. -/
inductive PowerState where
  | ACTIVE
  | IDLE_A
  | IDLE_B
  | IDLE_C
  | STANDBY_Y
  | STANDBY_Z
deriving DecidableEq

/-- The integer value of each `PowerState` member, its sleep depth. -/
def PowerState.depth : PowerState → Nat
  | .ACTIVE => 0
  | .IDLE_A => 1
  | .IDLE_B => 2
  | .IDLE_C => 3
  | .STANDBY_Y => 4
  | .STANDBY_Z => 5

/-- Transport variants: the `isinstance` dispatch in `PowerCondition.set`. -/
inductive Transport where
  | SAS
  | SATA
deriving DecidableEq

/-- A transport-specific power command: a SAS START STOP UNIT
(power condition, modifier) pair, or a SATA hdparm flag string. -/
inductive Command where
  | sas (pc pm : Nat)
  | sata (flag : String)
deriving DecidableEq

namespace PowerCondition

def IDLE_A : Nat × Nat := (0x2, 0x0)

def IDLE_B : Nat × Nat := (0x2, 0x1)

def IDLE_C : Nat × Nat := (0x2, 0x2)

def STANDBY_Y : Nat × Nat := (0x3, 0x1)

def STANDBY_Z : Nat × Nat := (0x3, 0x0)

def IDLE_A_FORCE : Nat × Nat := (0xA, 0x0)

def IDLE_B_FORCE : Nat × Nat := (0xA, 0x1)

def IDLE_C_FORCE : Nat × Nat := (0xA, 0x2)

def STANDBY_Y_FORCE : Nat × Nat := (0xB, 0x1)

def STANDBY_Z_FORCE : Nat × Nat := (0xB, 0x0)

def IDLE_IMMEDIATE : String := "--idle-immediate"

def IDLE_UNLOAD : String := "--idle-unload"

def STANDBY : String := "-y"

def SLEEP : String := "-Y"

/-- `PowerCondition.set(disktype, state, force)` from disk.py: the mapping
from a target tier to the transport-specific command.  Returns `none` for
`ACTIVE` (the trailing `return None` in the source). -/
def set (disktype : Transport) (state : PowerState) (force : Bool) : Option Command :=
  match disktype with
  | .SAS =>
    if state = .IDLE_A then
      some (if force then Command.sas IDLE_A_FORCE.1 IDLE_A_FORCE.2 else Command.sas IDLE_A.1 IDLE_A.2)
    else if state = .IDLE_B then
      some (if force then Command.sas IDLE_B_FORCE.1 IDLE_B_FORCE.2 else Command.sas IDLE_B.1 IDLE_B.2)
    else if state = .IDLE_C then
      some (if force then Command.sas IDLE_C_FORCE.1 IDLE_C_FORCE.2 else Command.sas IDLE_C.1 IDLE_C.2)
    else if state = .STANDBY_Y then
      some (if force then Command.sas STANDBY_Y_FORCE.1 STANDBY_Y_FORCE.2 else Command.sas STANDBY_Y.1 STANDBY_Y.2)
    else if state = .STANDBY_Z then
      some (if force then Command.sas STANDBY_Z_FORCE.1 STANDBY_Z_FORCE.2 else Command.sas STANDBY_Z.1 STANDBY_Z.2)
    else none
  | .SATA =>
    if state = .IDLE_A then some (Command.sata IDLE_IMMEDIATE)
    else if state = .IDLE_B ∨ state = .IDLE_C then some (Command.sata IDLE_UNLOAD)
    else if state = .STANDBY_Y ∨ state = .STANDBY_Z then some (Command.sata STANDBY)
    else none

end PowerCondition

/-- Does `pat` occur at the head of `s`?  Helper for Python's `in`. -/
def chHeadMatch : List Char → List Char → Bool
  | [], _ => true
  | _ :: _, [] => false
  | a :: as, b :: bs => a == b && chHeadMatch as bs

/-- Does `pat` occur as a contiguous run anywhere in `s`? -/
def chContains (pat : List Char) : List Char → Bool
  | [] => chHeadMatch pat []
  | b :: bs => chHeadMatch pat (b :: bs) || chContains pat bs

/-- Python's substring test `pat in s`. -/
def strIn (pat s : String) : Bool := chContains pat.data s.data

/-- Python slice `data[a:b]` (with `0 ≤ a ≤ b`). -/
def pySlice (data : List Nat) (a b : Nat) : List Nat := (data.drop a).take (b - a)

/-- `struct.unpack(">H", bs)[0]`: fails unless `bs` is exactly two bytes. -/
def unpackBE16 : List Nat → Option Nat
  | [hi, lo] => some (hi * 256 + lo)
  | _ => none

/-- `struct.unpack(">I", bs)[0]`: fails unless `bs` is exactly four bytes. -/
def unpackBE32 : List Nat → Option Nat
  | [b0, b1, b2, b3] => some (((b0 * 256 + b1) * 256 + b2) * 256 + b3)
  | _ => none

/-- `SAS._power_state` from disk.py, as a pure step on the sense data and
the previously stored `self.powerstate`.  Returns
`(new stored powerstate, returned value)`; `none` models the IndexError a
buffer shorter than 14 bytes would raise at `data[12]`/`data[13]`. -/
def SAS.powerStateRead (data : List Nat) (prev : PowerState) : Option (PowerState × PowerState) := do
  let code ← data.get? 12
  let q ← data.get? 13
  if code = 0 ∧ q = 0 then
    pure (prev, PowerState.ACTIVE)
  else if code = 0x5e then
    let ns : PowerState :=
      if q = 1 ∨ q = 3 then .IDLE_A
      else if q = 2 ∨ q = 4 then .STANDBY_Z
      else if q = 5 ∨ q = 6 then .IDLE_B
      else if q = 7 ∨ q = 8 then .IDLE_C
      else if q = 9 ∨ q = 10 then .STANDBY_Y
      else .ACTIVE
    pure (ns, ns)
  else
    pure (prev, prev)

/-- The mutable fields of a SAS device object that the power path touches:
`self.powerstate` (class default `ACTIVE`) and `self.powerstate_set`
(unset until the first `_power_set`, hence `Option`). -/
structure SASDev where
  powerstate : PowerState
  powerstate_set : Option PowerState
deriving DecidableEq

/-- `Generic.power_state` on a SAS device: run `_power_state` against the
given sense buffer, updating the stored field and producing the return
value. -/
def SAS.powerState (d : SASDev) (sense : List Nat) : Option (SASDev × PowerState) :=
  (SAS.powerStateRead sense d.powerstate).map fun r => (⟨r.1, d.powerstate_set⟩, r.2)

/-- `Generic.power_set` on a SAS device (disk.py lines 149–160 together
with `SAS._power_set`, lines 351–357): map the target tier through
`PowerCondition.set` (the tuple unpacking `pc, pm = ...` raises on `None`,
hence the bind), issue START STOP UNIT, record `powerstate_set`, verify
via `_power_state` (`sense1`), then `power_set` itself calls
`power_state()` once more (`sense2`).  The triple returned is
(final device state, command issued, Python return value of `power_set`);
the source method has no `return` statement, so that value is `None`.
The LED path (`disco`) only shells out and touches no modelled state. -/
def SAS.powerSet (d : SASDev) (state : PowerState) (force : Bool) (sense1 sense2 : List Nat) :
    Option (SASDev × Command × Option PowerState) := do
  let cmd ← PowerCondition.set .SAS state force
  let d1 : SASDev := ⟨d.powerstate, some state⟩
  let r1 ← SAS.powerState d1 sense1
  let r2 ← SAS.powerState r1.1 sense2
  pure (r2.1, cmd, none)

/-- The mutable fields of a SATA device object: `self.powerstate` and
`self.powerstate_set`, the latter a class attribute initialised to
`PowerState.ACTIVE` (so the `is not None` test in `_power_state` can only
see `none` if nothing was ever assigned, which the class default
prevents). -/
structure SATADev where
  powerstate : PowerState
  powerstate_set : Option PowerState
deriving DecidableEq

/-- `SATA._power_state` from disk.py (lines 376–385): string-match the
hdparm mode report; "active" is trusted to mean the last requested tier
(falling back to `ACTIVE` if `powerstate_set` is `None`), otherwise
"standby" means `STANDBY_Z`, otherwise `ACTIVE`. -/
def SATA.powerState (d : SATADev) (mode : String) : SATADev × PowerState :=
  if strIn "active" mode then
    let ps := d.powerstate_set.getD PowerState.ACTIVE
    (⟨ps, d.powerstate_set⟩, ps)
  else if strIn "standby" mode then
    (⟨.STANDBY_Z, d.powerstate_set⟩, .STANDBY_Z)
  else
    (⟨.ACTIVE, d.powerstate_set⟩, .ACTIVE)

/-- `Generic.power_set` on a SATA device (`SATA._power_set`, disk.py
lines 387–392): issue the hdparm flag from `PowerCondition.set` (passing
`None` to `subprocess.run` would raise, hence the bind; `force` is not
forwarded), record `powerstate_set`, verify via `_power_state` (`mode1`),
then `power_set` calls `power_state()` again (`mode2`).  As for SAS, the
method returns `None`. -/
def SATA.powerSet (d : SATADev) (state : PowerState) (mode1 mode2 : String) :
    Option (SATADev × Command × Option PowerState) := do
  let cmd ← PowerCondition.set .SATA state false
  let d1 : SATADev := ⟨d.powerstate, some state⟩
  let r1 := SATA.powerState d1 mode1
  let r2 := SATA.powerState r1.1 mode2
  pure (r2.1, cmd, none)

/-- The `recovery_time` table filled by `SAS._get_recovery_time`. -/
structure RecoveryTime where
  stopped : ℚ
  standby_z : ℚ
  standby_y : ℚ
  idle_a : ℚ
  idle_b : ℚ
  idle_c : ℚ
deriving DecidableEq

/-- `SAS._get_recovery_time` from disk.py (lines 259–277): decode the VPD
power-condition page.  Support bits come from `data[5]` (idle a/b/c, bits
0/1/2) and `data[4]` (standby y/z, bits 1/0); each supported tier's
recovery time is `struct.unpack(">H", slice)[0] / 1000.0`, an unsupported
tier is `-1`.  Note the source reads `data[10:12]` for BOTH `standby_y`
and `standby_z`; `data[8:10]` is never read.  In Python a conditional
expression only evaluates the unpack when the support bit is set, which
the `if` below mirrors. -/
def SAS.getRecoveryTime (data : List Nat) : Option RecoveryTime := do
  let b5 ← data.get? 5
  let b4 ← data.get? 4
  let idle_a_s := b5 &&& 0b00000001
  let idle_b_s := b5 &&& 0b00000010
  let idle_c_s := b5 &&& 0b00000100
  let standby_y_s := b4 &&& 0b00000010
  let standby_z_s := b4 &&& 0b00000001
  let idle_a ← if idle_a_s ≠ 0 then (unpackBE16 (pySlice data 12 14)).map (fun v => (v : ℚ) / 1000) else pure (-1 : ℚ)
  let idle_b ← if idle_b_s ≠ 0 then (unpackBE16 (pySlice data 14 16)).map (fun v => (v : ℚ) / 1000) else pure (-1 : ℚ)
  let idle_c ← if idle_c_s ≠ 0 then (unpackBE16 (pySlice data 16 18)).map (fun v => (v : ℚ) / 1000) else pure (-1 : ℚ)
  let standby_y ← if standby_y_s ≠ 0 then (unpackBE16 (pySlice data 10 12)).map (fun v => (v : ℚ) / 1000) else pure (-1 : ℚ)
  let standby_z ← if standby_z_s ≠ 0 then (unpackBE16 (pySlice data 10 12)).map (fun v => (v : ℚ) / 1000) else pure (-1 : ℚ)
  let stopped ← (unpackBE16 (pySlice data 6 8)).map (fun v => (v : ℚ) / 1000)
  pure ⟨stopped, standby_z, standby_y, idle_a, idle_b, idle_c⟩

/-- The enable flags and timers filled by `SAS._get_power_control`. -/
structure PowerControl where
  standby_y_en : Nat
  standby_z_en : Nat
  idle_c_en : Nat
  idle_b_en : Nat
  idle_a_en : Nat
  idle_a_timer : Nat
  standby_z_timer : Nat
  idle_b_timer : Nat
  idle_c_timer : Nat
  standby_y_timer : Nat
deriving DecidableEq

/-- `SAS._get_power_control` from disk.py (lines 279–292): decode mode
page 0x1A.  The local `pm_bg` is computed but never stored on `self`, so
it is not modelled. -/
def SAS.getPowerControl (data : List Nat) : Option PowerControl := do
  let b14 ← data.get? 14
  let b15 ← data.get? 15
  let standby_y_en := 0b00000001 &&& b14
  let standby_z_en := 0b00000001 &&& b15
  let idle_c_en := (0b00001000 &&& b15) >>> 3
  let idle_b_en := (0b00000100 &&& b15) >>> 2
  let idle_a_en := (0b00000010 &&& b15) >>> 1
  let idle_a_timer ← unpackBE32 (pySlice data 16 20)
  let standby_z_timer ← unpackBE32 (pySlice data 20 24)
  let idle_b_timer ← unpackBE32 (pySlice data 24 28)
  let idle_c_timer ← unpackBE32 (pySlice data 28 32)
  let standby_y_timer ← unpackBE32 (pySlice data 32 36)
  pure ⟨standby_y_en, standby_z_en, idle_c_en, idle_b_en, idle_a_en,
        idle_a_timer, standby_z_timer, idle_b_timer, idle_c_timer, standby_y_timer⟩

/-- The timeout arguments of `Disk.standby`, in seconds. -/
structure Timeouts where
  standby : Nat
  idle_c : Nat
  idle_b : Nat
  idle_a : Nat
deriving DecidableEq

/-- The default timeouts of `Disk.standby`: 60 min, 30 min, 10 min, 60 s. -/
def defaultTimeouts : Timeouts := ⟨3600, 1800, 600, 60⟩

/-- The four tiers `Disk.standby` can stage or issue. -/
inductive Tier where
  | IDLE_A
  | IDLE_B
  | IDLE_C
  | STANDBY_Z
deriving DecidableEq

/-- The `PowerState` a tier transitions the device into. -/
def Tier.toPowerState : Tier → PowerState
  | .IDLE_A => .IDLE_A
  | .IDLE_B => .IDLE_B
  | .IDLE_C => .IDLE_C
  | .STANDBY_Z => .STANDBY_Z

/-- The hardware command `Disk.standby` shells out for each tier:
`smartctl -s standby,now` for STANDBY_Z, `sg_start -r -pP -mM` for the
idle tiers. -/
inductive HwCmd where
  | smartctlStandbyNow
  | sgStart (p m : Nat)
deriving DecidableEq

/-- The subprocess invocation of each commit branch in `Disk.standby`. -/
def cmdFor : Tier → HwCmd
  | .STANDBY_Z => .smartctlStandbyNow
  | .IDLE_C => .sgStart 2 2
  | .IDLE_B => .sgStart 2 1
  | .IDLE_A => .sgStart 2 0

/-- The status strings `Disk.standby` returns (capitalisation of
"issued"/"Issued" in the source is cosmetic and not modelled). -/
inductive Msg where
  | issuedMsg (t : Tier)
  | stagedMsg (t : Tier)
  | holdingStandby
  | holdingIdleC
  | holdingIdleB
  | holdingIdleA
  | inMode
deriving DecidableEq

/-- The mutable fields of a `Disk` (diskstats.py) that `standby` reads and
writes: `self.status` (set by `powerstatus` from smartctl output),
`self.staged`, and `self.sata`. -/
structure DiskState where
  status : String
  staged : Bool
  sata : Bool
deriving DecidableEq

/-- The tier-selection chain of `Disk.standby` (diskstats.py lines
196–227): the conditions of the four `if`/`elif` branches, first match
wins.  `idle` is the idle duration in seconds; the comparisons are the
strict `>` of the source's timedelta comparisons. -/
def eligibleTier (status : String) (sata : Bool) (idle : Nat) (tmo : Timeouts) : Option Tier :=
  if idle > tmo.standby ∧ strIn "STANDBY" status = false then
    some .STANDBY_Z
  else if idle > tmo.idle_c ∧ strIn "STANDBY" status = false ∧ strIn "IDLE_C" status = false ∧
      sata = false ∧ strIn "ACTIVE" status = false then
    some .IDLE_C
  else if idle > tmo.idle_b ∧ strIn "STANDBY" status = false ∧ strIn "IDLE_C" status = false ∧
      strIn "IDLE_" status = false ∧ sata = false ∧ strIn "ACTIVE" status = false then
    some .IDLE_B
  else if idle > tmo.idle_a ∧ strIn "ACTIVE" status = true ∧ sata = false then
    some .IDLE_A
  else
    none

/-- `Disk.standby` from diskstats.py (lines 192–236), one decision cycle.
Every tier branch has the same two-phase body: if `self.staged` then run
the subprocess, clear `staged` and return "Issued", else set `staged` and
return "Staged".  When no tier matches, the trailing `elif` chain picks a
holding message, else the final "Disk in ... mode" return.  Result:
(new state, hardware command issued if any, returned message). -/
def Disk.standby (s : DiskState) (idle : Nat) (tmo : Timeouts) : DiskState × Option HwCmd × Msg :=
  match eligibleTier s.status s.sata idle tmo with
  | some t =>
    if s.staged then (⟨s.status, false, s.sata⟩, some (cmdFor t), .issuedMsg t)
    else (⟨s.status, true, s.sata⟩, none, .stagedMsg t)
  | none =>
    if strIn "STANDBY" s.status = true ∧ idle < tmo.standby then (s, none, .holdingStandby)
    else if strIn "IDLE_C" s.status = true ∧ idle < tmo.idle_c then (s, none, .holdingIdleC)
    else if strIn "IDLE_" s.status = true ∧ idle < tmo.idle_b then (s, none, .holdingIdleB)
    else if strIn "IDLE" s.status = true ∧ idle < tmo.idle_a ∧ strIn "ACTIVE" s.status = false then
      (s, none, .holdingIdleA)
    else (s, none, .inMode)

/-- The status string smartctl reports (and `Disk.powerstatus` stores)
for a device whose verified power state is the given tier — the strings
the `Disk.standby` substring tests are written against. -/
def render : PowerState → String
  | .ACTIVE => "ACTIVE"
  | .IDLE_A => "IDLE_A"
  | .IDLE_B => "IDLE_B"
  | .IDLE_C => "IDLE_C"
  | .STANDBY_Y => "STANDBY_Y"
  | .STANDBY_Z => "STANDBY_Z"

/-- One persisted JSON record as `Diskstats.load` sees it: the three
fields it looks up, each possibly absent (`value['k']` on an absent key
raises `KeyError`). -/
structure JRec where
  time_last_check : Option ℚ
  current_reads_completed : Option Nat
  current_writes_completed : Option Nat
deriving DecidableEq

/-- What reading and json-parsing the persisted-state file can produce:
the file is absent, the file exists but `json.loads` raises, or it parses
to a mapping of device records. -/
inductive LoadInput where
  | fileMissing
  | malformed
  | parsed (entries : List (String × JRec))
deriving DecidableEq

/-- The uncaught exceptions `Diskstats.load` can propagate. -/
inductive PyError where
  | jsonDecodeError
  | keyError (k : String)
deriving DecidableEq

/-- The per-record body of the loop in `Diskstats.load`: each record must
supply all three keys, a missing key raises `KeyError` (records before the
failing one have already been applied in Python; the surviving result here
is the fully-applied list, error propagation is what the claims concern). -/
def loadRecords : List (String × JRec) → Except PyError (List (String × ℚ × Nat × Nat))
  | [] => Except.ok []
  | (n, r) :: rest =>
    match r.time_last_check with
    | none => Except.error (PyError.keyError "time_last_check")
    | some t =>
      match r.current_reads_completed with
      | none => Except.error (PyError.keyError "current_reads_completed")
      | some cr =>
        match r.current_writes_completed with
        | none => Except.error (PyError.keyError "current_writes_completed")
        | some cw => (loadRecords rest).map fun l => (n, t, cr, cw) :: l

/-- `Diskstats.load` from diskstats.py (lines 34–48): the whole body is
wrapped in `try ... except FileNotFoundError: pass`, so a missing file
yields no records and no error, while a `json.JSONDecodeError` from a
malformed file or a `KeyError` from an unparsable record propagates to
the caller. -/
def Diskstats.load : LoadInput → Except PyError (List (String × ℚ × Nat × Nat))
  | .fileMissing => Except.ok []
  | .malformed => Except.error PyError.jsonDecodeError
  | .parsed entries => loadRecords entries

/-- The per-device branch of `Diskstats.__init__` (diskstats.py lines
20–23): a device with no loaded record gets a fresh `Disk(name)`, whose
constructor defaults are timestamp `now` (`datetime.utcnow()`) and zero
counters — "idle since process start with zero counters". -/
def Diskstats.diskFor (loaded : List (String × ℚ × Nat × Nat)) (now : ℚ) (name : String) :
    ℚ × Nat × Nat :=
  match loaded.lookup name with
  | some v => v
  | none => (now, 0, 0)

/-- In-bounds `get?` produces the `getD` value. -/
theorem get?_eq_getD : ∀ (l : List Nat) (i : Nat), i < l.length → l.get? i = some (l.getD i 0) := by
  intro l
  induction l with
  | nil => intro i h; simp at h
  | cons x xs ih =>
    intro i h
    cases i with
    | zero => rfl
    | succ j => exact ih j (by simpa using h)

/-- A two-byte Python slice at an in-bounds offset. -/
theorem pySlice_two : ∀ (data : List Nat) (i a b : Nat),
    data.get? i = some a → data.get? (i + 1) = some b → pySlice data i (i + 2) = [a, b] := by
  intro data
  induction data with
  | nil => intro i a b ha _; simp at ha
  | cons x xs ih =>
    intro i a b ha hb
    cases i with
    | zero =>
      have hax : x = a := by simpa using ha
      subst hax
      cases xs with
      | nil => simp at hb
      | cons y ys =>
        have hby : y = b := by simpa using hb
        subst hby
        rfl
    | succ j =>
      have hrec := ih j a b (by simpa using ha) (by simpa using hb)
      have hstep : pySlice (x :: xs) (j + 1) (j + 1 + 2) = pySlice xs j (j + 2) := by
        unfold pySlice
        simp [List.drop]
      rw [hstep, hrec]

/-- C7. Power-condition mapping: for each transport, each of the five
non-active target tiers and each force flag, `PowerCondition.set` returns
exactly the command of the spec's §4.3 table; in particular SAS IDLE_A is
(0x2,0x0) unforced and (0xA,0x0) forced, SAS STANDBY_Z is (0x3,0x0) and
(0xB,0x0), and STANDBY_Y and STANDBY_Z map to the same single SATA standby
command. -/
theorem C7_power_condition_mapping : ∀ force : Bool,
    PowerCondition.set .SAS .IDLE_A force = some (if force then Command.sas 0xA 0x0 else Command.sas 0x2 0x0) ∧
    PowerCondition.set .SAS .IDLE_B force = some (if force then Command.sas 0xA 0x1 else Command.sas 0x2 0x1) ∧
    PowerCondition.set .SAS .IDLE_C force = some (if force then Command.sas 0xA 0x2 else Command.sas 0x2 0x2) ∧
    PowerCondition.set .SAS .STANDBY_Y force = some (if force then Command.sas 0xB 0x1 else Command.sas 0x3 0x1) ∧
    PowerCondition.set .SAS .STANDBY_Z force = some (if force then Command.sas 0xB 0x0 else Command.sas 0x3 0x0) ∧
    PowerCondition.set .SATA .IDLE_A force = some (Command.sata "--idle-immediate") ∧
    PowerCondition.set .SATA .IDLE_B force = some (Command.sata "--idle-unload") ∧
    PowerCondition.set .SATA .IDLE_C force = some (Command.sata "--idle-unload") ∧
    PowerCondition.set .SATA .STANDBY_Y force = some (Command.sata "-y") ∧
    PowerCondition.set .SATA .STANDBY_Z force = some (Command.sata "-y") ∧
    PowerCondition.set .SATA .STANDBY_Y force = PowerCondition.set .SATA .STANDBY_Z force := by
  intro force
  cases force <;> decide

/-- C2, counterexample.  The claim says the five tiers' recovery times are
unpacked from five DISTINCT big-endian 16-bit fields; in the source
STANDBY_Y and STANDBY_Z are both unpacked from `data[10:12]` and bytes
8..9 are never read: on a buffer whose 16-bit fields at offsets 8, 10, 12,
14, 16 are pairwise different (support bits all set), the decoder returns
the same value for STANDBY_Y and STANDBY_Z, and changing bytes 8..9
changes nothing. -/
theorem C2_counterexample :
    SAS.getRecoveryTime [0, 0, 0, 0, 3, 7, 0, 50, 1, 2, 3, 4, 5, 6, 7, 8, 9, 10] =
      SAS.getRecoveryTime [0, 0, 0, 0, 3, 7, 0, 50, 99, 99, 3, 4, 5, 6, 7, 8, 9, 10] ∧
    SAS.getRecoveryTime [0, 0, 0, 0, 3, 7, 0, 50, 1, 2, 3, 4, 5, 6, 7, 8, 9, 10] =
      some ⟨(50 : ℚ) / 1000, (772 : ℚ) / 1000, (772 : ℚ) / 1000,
            (1286 : ℚ) / 1000, (1800 : ℚ) / 1000, (2314 : ℚ) / 1000⟩ := by
  constructor
  · rfl
  · simp [SAS.getRecoveryTime, pySlice, unpackBE16]

/-- C2, amended.  For every response buffer of length ≥ 18 the decoder
succeeds; IDLE_A, IDLE_B, IDLE_C are unpacked from the distinct big-endian
16-bit fields at bytes 12..13, 14..15, 16..17, while STANDBY_Y and
STANDBY_Z are BOTH unpacked from the field at bytes 10..11 (four distinct
fields for the five tiers); values are milliseconds divided by 1000, each
gated by its per-tier support bit in the two status bytes (byte 5 bits
0/1/2 for the idle tiers, byte 4 bits 1/0 for the standby tiers); an
unsupported tier yields -1. -/
theorem C2_amended_recovery_decode : ∀ data : List Nat, 18 ≤ data.length →
    SAS.getRecoveryTime data = some
      ⟨((data.getD 6 0 * 256 + data.getD 7 0 : ℕ) : ℚ) / 1000,
       if data.getD 4 0 &&& 1 ≠ 0 then ((data.getD 10 0 * 256 + data.getD 11 0 : ℕ) : ℚ) / 1000 else -1,
       if data.getD 4 0 &&& 2 ≠ 0 then ((data.getD 10 0 * 256 + data.getD 11 0 : ℕ) : ℚ) / 1000 else -1,
       if data.getD 5 0 &&& 1 ≠ 0 then ((data.getD 12 0 * 256 + data.getD 13 0 : ℕ) : ℚ) / 1000 else -1,
       if data.getD 5 0 &&& 2 ≠ 0 then ((data.getD 14 0 * 256 + data.getD 15 0 : ℕ) : ℚ) / 1000 else -1,
       if data.getD 5 0 &&& 4 ≠ 0 then ((data.getD 16 0 * 256 + data.getD 17 0 : ℕ) : ℚ) / 1000 else -1⟩ := by
  intro data h
  have h4 := get?_eq_getD data 4 (by omega)
  have h5 := get?_eq_getD data 5 (by omega)
  have s6 : pySlice data 6 8 = [data.getD 6 0, data.getD 7 0] := by
    simpa using pySlice_two data 6 (data.getD 6 0) (data.getD 7 0)
      (get?_eq_getD data 6 (by omega)) (get?_eq_getD data 7 (by omega))
  have s10 : pySlice data 10 12 = [data.getD 10 0, data.getD 11 0] := by
    simpa using pySlice_two data 10 (data.getD 10 0) (data.getD 11 0)
      (get?_eq_getD data 10 (by omega)) (get?_eq_getD data 11 (by omega))
  have s12 : pySlice data 12 14 = [data.getD 12 0, data.getD 13 0] := by
    simpa using pySlice_two data 12 (data.getD 12 0) (data.getD 13 0)
      (get?_eq_getD data 12 (by omega)) (get?_eq_getD data 13 (by omega))
  have s14 : pySlice data 14 16 = [data.getD 14 0, data.getD 15 0] := by
    simpa using pySlice_two data 14 (data.getD 14 0) (data.getD 15 0)
      (get?_eq_getD data 14 (by omega)) (get?_eq_getD data 15 (by omega))
  have s16 : pySlice data 16 18 = [data.getD 16 0, data.getD 17 0] := by
    simpa using pySlice_two data 16 (data.getD 16 0) (data.getD 17 0)
      (get?_eq_getD data 16 (by omega)) (get?_eq_getD data 17 (by omega))
  simp only [SAS.getRecoveryTime, h5, h4, Option.bind_eq_bind', Option.some_bind', s6, s10, s12,
    s14, s16, unpackBE16, Option.map_some', Option.pure_def]
  split_ifs <;> rfl

/-- C2, amended, witness at a concrete 18-byte buffer. -/
theorem C2_amended_witness :
    (18 : Nat) ≤ ([0, 0, 0, 0, 3, 7, 0, 50, 1, 2, 3, 4, 5, 6, 7, 8, 9, 10] : List Nat).length ∧
    SAS.getRecoveryTime [0, 0, 0, 0, 3, 7, 0, 50, 1, 2, 3, 4, 5, 6, 7, 8, 9, 10] =
      some ⟨((0 * 256 + 50 : ℕ) : ℚ) / 1000,
            if (3 : ℕ) &&& 1 ≠ 0 then ((3 * 256 + 4 : ℕ) : ℚ) / 1000 else -1,
            if (3 : ℕ) &&& 2 ≠ 0 then ((3 * 256 + 4 : ℕ) : ℚ) / 1000 else -1,
            if (7 : ℕ) &&& 1 ≠ 0 then ((5 * 256 + 6 : ℕ) : ℚ) / 1000 else -1,
            if (7 : ℕ) &&& 2 ≠ 0 then ((7 * 256 + 8 : ℕ) : ℚ) / 1000 else -1,
            if (7 : ℕ) &&& 4 ≠ 0 then ((9 * 256 + 10 : ℕ) : ℚ) / 1000 else -1⟩ :=
  ⟨by decide,
   C2_amended_recovery_decode [0, 0, 0, 0, 3, 7, 0, 50, 1, 2, 3, 4, 5, 6, 7, 8, 9, 10] (by decide)⟩

/-- C8.  decode_request_sense mapping: for every sense buffer long enough
(bytes at offsets 12 and 13 exist), the additional sense code/qualifier
pair (0,0) yields ACTIVE; code 0x5E with qualifier 1 or 3 yields IDLE_A,
2 or 4 yields STANDBY_Z, 5 or 6 yields IDLE_B, 7 or 8 yields IDLE_C, 9 or
10 yields STANDBY_Y, and any other qualifier under code 0x5E yields
ACTIVE. -/
theorem C8_request_sense_decode :
    ∀ (data : List Nat) (prev : PowerState) (code q : Nat),
    data.get? 12 = some code → data.get? 13 = some q →
    ∃ r : PowerState × PowerState, SAS.powerStateRead data prev = some r ∧
      ((code = 0 ∧ q = 0) → r.2 = .ACTIVE) ∧
      (code = 0x5e →
        ((q = 1 ∨ q = 3) → r.2 = .IDLE_A) ∧
        ((q = 2 ∨ q = 4) → r.2 = .STANDBY_Z) ∧
        ((q = 5 ∨ q = 6) → r.2 = .IDLE_B) ∧
        ((q = 7 ∨ q = 8) → r.2 = .IDLE_C) ∧
        ((q = 9 ∨ q = 10) → r.2 = .STANDBY_Y) ∧
        (q ≠ 1 → q ≠ 2 → q ≠ 3 → q ≠ 4 → q ≠ 5 → q ≠ 6 → q ≠ 7 → q ≠ 8 → q ≠ 9 → q ≠ 10 →
          r.2 = .ACTIVE)) := by
  intro data prev code q h12 h13
  simp only [SAS.powerStateRead, h12, h13, Option.bind_eq_bind', Option.some_bind',
    Option.pure_def]
  split_ifs with hz h5e q13 q24 q56 q78 q910 <;>
    exact ⟨_, rfl, by simp_all <;> omega⟩

/-- C8, witness: a concrete 14-byte sense buffer with code 0x5E and
qualifier 6, decoding to IDLE_B. -/
theorem C8_request_sense_decode_witness :
    ∃ r : PowerState × PowerState,
      SAS.powerStateRead [0, 0, 0, 0, 0, 0, 0, 0, 0, 0, 0, 0, 0x5e, 6] PowerState.ACTIVE =
        some r ∧ r.2 = PowerState.IDLE_B := by
  obtain ⟨r, hr, -, h5e⟩ :=
    C8_request_sense_decode [0, 0, 0, 0, 0, 0, 0, 0, 0, 0, 0, 0, 0x5e, 6] .ACTIVE 0x5e 6
      (by decide) (by decide)
  exact ⟨r, hr, (h5e rfl).2.2.1 (Or.inr rfl)⟩

/-- C10.  Frame property of the SAS power-state read: whenever the
additional sense code byte (offset 12) is not 0x5E, `_power_state` leaves
the stored `powerstate` field unchanged; in particular a (0,0) fully
active response returns ACTIVE while the stored field keeps its previous
value (here IDLE_B), so a later read with an unrecognized sense code
(here 0x42) returns that stale pre-(0,0) state instead of ACTIVE. -/
theorem C10_powerstate_frame :
    (∀ (data : List Nat) (prev : PowerState) (r : PowerState × PowerState),
      SAS.powerStateRead data prev = some r → data.get? 12 ≠ some 0x5e → r.1 = prev) ∧
    SAS.powerStateRead [0, 0, 0, 0, 0, 0, 0, 0, 0, 0, 0, 0, 0, 0] PowerState.IDLE_B =
      some (PowerState.IDLE_B, PowerState.ACTIVE) ∧
    SAS.powerStateRead [0, 0, 0, 0, 0, 0, 0, 0, 0, 0, 0, 0, 0x42, 0] PowerState.IDLE_B =
      some (PowerState.IDLE_B, PowerState.IDLE_B) := by
  refine ⟨?_, by decide, by decide⟩
  intro data prev r hr hne
  cases h12 : data.get? 12 with
  | none =>
    simp only [SAS.powerStateRead, h12, Option.bind_eq_bind', Option.none_bind'] at hr
    exact absurd hr (by simp)
  | some code =>
    cases h13 : data.get? 13 with
    | none =>
      simp only [SAS.powerStateRead, h12, h13, Option.bind_eq_bind', Option.some_bind',
        Option.none_bind'] at hr
      exact absurd hr (by simp)
    | some q =>
      simp only [SAS.powerStateRead, h12, h13, Option.bind_eq_bind', Option.some_bind',
        Option.pure_def] at hr
      split_ifs at hr with hz h5e <;>
        first
          | exact absurd (h12.trans (by rw [h5e])) hne
          | (cases hr; rfl)

/-- C10, witness: the frame part applied at a concrete buffer with sense
code 7 and stored state IDLE_C. -/
theorem C10_powerstate_frame_witness :
    SAS.powerStateRead [0, 0, 0, 0, 0, 0, 0, 0, 0, 0, 0, 0, 7, 0] PowerState.IDLE_C =
      some (PowerState.IDLE_C, PowerState.IDLE_C) ∧
    (PowerState.IDLE_C, PowerState.IDLE_C).1 = PowerState.IDLE_C :=
  ⟨by decide,
   C10_powerstate_frame.1 [0, 0, 0, 0, 0, 0, 0, 0, 0, 0, 0, 0, 7, 0] .IDLE_C
     (.IDLE_C, .IDLE_C) (by decide) (by decide)⟩

/-- C9, counterexample.  The claim says "whenever the report contains
'standby' it returns STANDBY_Z"; but `SATA._power_state` tests "active"
first (`elif`), so a report containing both substrings returns the last
requested tier, not STANDBY_Z. -/
theorem C9_counterexample :
    strIn "standby" "standby active" = true ∧
    (SATA.powerState ⟨PowerState.ACTIVE, some PowerState.IDLE_A⟩ "standby active").2 =
      PowerState.IDLE_A ∧
    PowerState.IDLE_A ≠ PowerState.STANDBY_Z := by
  decide

/-- C9, amended.  SATA write-trusted read: whenever the mode report
contains "active", `_power_state` returns the last tier the driver
requested (`powerstate_set`, ACTIVE if never set); whenever the report
contains "standby" AND does not contain "active", it returns STANDBY_Z;
and `_power_set` records the requested tier in `powerstate_set`. -/
theorem C9_amended_sata_read :
    (∀ (d : SATADev) (mode : String), strIn "active" mode = true →
      (SATA.powerState d mode).2 = d.powerstate_set.getD PowerState.ACTIVE) ∧
    (∀ (d : SATADev) (mode : String), strIn "active" mode = false →
      strIn "standby" mode = true → (SATA.powerState d mode).2 = PowerState.STANDBY_Z) ∧
    (∀ (d : SATADev) (state : PowerState) (m1 m2 : String) (r : SATADev × Command × Option PowerState),
      SATA.powerSet d state m1 m2 = some r → r.1.powerstate_set = some state) := by
  refine ⟨?_, ?_, ?_⟩
  · intro d mode h
    simp [SATA.powerState, h]
  · intro d mode h1 h2
    simp [SATA.powerState, h1, h2]
  · intro d state m1 m2 r h
    cases hc : PowerCondition.set .SATA state false with
    | none =>
      rw [SATA.powerSet, hc] at h
      simp at h
    | some c =>
      rw [SATA.powerSet, hc] at h
      simp only [Option.bind_eq_bind', Option.some_bind', Option.pure_def,
        Option.some_inj] at h
      rw [← h]
      rw [SATA.powerState, SATA.powerState]
      split_ifs <;> rfl

/-- C9, amended, witness: a report containing "active" returns the last
requested tier (IDLE_C), and a "standby"-only report returns STANDBY_Z. -/
theorem C9_amended_witness :
    (SATA.powerState ⟨PowerState.ACTIVE, some PowerState.IDLE_C⟩ "drive state is:  active/idle").2 =
      (some PowerState.IDLE_C).getD PowerState.ACTIVE ∧
    (SATA.powerState ⟨PowerState.ACTIVE, some PowerState.IDLE_C⟩ "drive state is:  standby").2 =
      PowerState.STANDBY_Z :=
  ⟨C9_amended_sata_read.1 ⟨.ACTIVE, some .IDLE_C⟩ "drive state is:  active/idle" (by decide),
   C9_amended_sata_read.2.1 ⟨.ACTIVE, some .IDLE_C⟩ "drive state is:  standby" (by decide)
     (by decide)⟩

/-- C3, counterexample.  The claim says `request_power_state` returns the
verified state to the caller; `Generic.power_set` has no return statement,
so it returns `None` even though the verification read stored STANDBY_Z in
`powerstate`: the returned value (third component) is `none`, not the
verified state. -/
theorem C3_counterexample :
    SAS.powerSet ⟨PowerState.ACTIVE, none⟩ PowerState.STANDBY_Z false
        [0, 0, 0, 0, 0, 0, 0, 0, 0, 0, 0, 0, 0x5e, 2] [0, 0, 0, 0, 0, 0, 0, 0, 0, 0, 0, 0, 0x5e, 2] =
      some (⟨PowerState.STANDBY_Z, some PowerState.STANDBY_Z⟩, Command.sas 0x3 0x0, none) ∧
    (none : Option PowerState) ≠ some PowerState.STANDBY_Z := by
  decide

/-- C3, amended.  For both transports, `power_set` maps the target through
the fixed `PowerCondition.set` table, issues that command, then
immediately re-reads the hardware state (twice: once inside `_power_set`
as verification, once via `power_state()`), storing the verified result in
the `powerstate` field; but the method itself returns `None`, not the
verified state — the verified state is only available via the stored
field. -/
theorem C3_amended_power_set :
    (∀ (d : SASDev) (state : PowerState) (force : Bool) (s1 s2 : List Nat)
        (r : SASDev × Command × Option PowerState),
      SAS.powerSet d state force s1 s2 = some r →
        some r.2.1 = PowerCondition.set .SAS state force ∧
        r.2.2 = none ∧
        ∃ v1 v2 : PowerState × PowerState,
          SAS.powerStateRead s1 d.powerstate = some v1 ∧
          SAS.powerStateRead s2 v1.1 = some v2 ∧
          r.1 = ⟨v2.1, some state⟩) ∧
    (∀ (d : SATADev) (state : PowerState) (m1 m2 : String)
        (r : SATADev × Command × Option PowerState),
      SATA.powerSet d state m1 m2 = some r →
        some r.2.1 = PowerCondition.set .SATA state false ∧
        r.2.2 = none ∧
        r.1 = (SATA.powerState (SATA.powerState ⟨d.powerstate, some state⟩ m1).1 m2).1) := by
  constructor
  · intro d state force s1 s2 r h
    cases hc : PowerCondition.set .SAS state force with
    | none =>
      rw [SAS.powerSet, hc] at h
      simp at h
    | some c =>
      rw [SAS.powerSet, hc] at h
      simp only [SAS.powerState, Option.bind_eq_bind', Option.some_bind', Option.pure_def] at h
      cases hr1 : SAS.powerStateRead s1 d.powerstate with
      | none =>
        rw [hr1] at h
        simp at h
      | some v1 =>
        rw [hr1] at h
        simp only [Option.map_some', Option.some_bind'] at h
        cases hr2 : SAS.powerStateRead s2 v1.1 with
        | none =>
          rw [hr2] at h
          simp at h
        | some v2 =>
          rw [hr2] at h
          simp only [Option.map_some', Option.some_bind', Option.some_inj] at h
          subst h
          exact ⟨rfl, rfl, v1, v2, rfl, hr2, rfl⟩
  · intro d state m1 m2 r h
    cases hc : PowerCondition.set .SATA state false with
    | none =>
      rw [SATA.powerSet, hc] at h
      simp at h
    | some c =>
      rw [SATA.powerSet, hc] at h
      simp only [Option.bind_eq_bind', Option.some_bind', Option.pure_def,
        Option.some_inj] at h
      subst h
      exact ⟨rfl, rfl, rfl⟩

/-- C3, amended, witness: a forced IDLE_C request on a SAS device whose
verification reads decode IDLE_C. -/
theorem C3_amended_witness :
    SAS.powerSet ⟨PowerState.IDLE_A, none⟩ PowerState.IDLE_C true
        [0, 0, 0, 0, 0, 0, 0, 0, 0, 0, 0, 0, 0x5e, 8] [0, 0, 0, 0, 0, 0, 0, 0, 0, 0, 0, 0, 0x5e, 8] =
      some (⟨PowerState.IDLE_C, some PowerState.IDLE_C⟩, Command.sas 0xA 0x2, none) ∧
    ((⟨PowerState.IDLE_C, some PowerState.IDLE_C⟩, Command.sas 0xA 0x2, none) :
        SASDev × Command × Option PowerState).2.2 = (none : Option PowerState) :=
  ⟨by decide,
   (C3_amended_power_set.1 ⟨.IDLE_A, none⟩ .IDLE_C true
      [0, 0, 0, 0, 0, 0, 0, 0, 0, 0, 0, 0, 0x5e, 8] [0, 0, 0, 0, 0, 0, 0, 0, 0, 0, 0, 0, 0x5e, 8]
      (⟨.IDLE_C, some .IDLE_C⟩, Command.sas 0xA 0x2, none) (by decide)).2.1⟩

/-- A staged or issued message of `Disk.standby` always comes from the
tier-selection chain: the selected tier is the message's tier. -/
theorem standby_msg_elig : ∀ (s : DiskState) (idle : Nat) (tmo : Timeouts) (t : Tier),
    ((Disk.standby s idle tmo).2.2 = Msg.stagedMsg t ∨
     (Disk.standby s idle tmo).2.2 = Msg.issuedMsg t) →
    eligibleTier s.status s.sata idle tmo = some t := by
  intro s idle tmo t h
  cases he : eligibleTier s.status s.sata idle tmo with
  | none =>
    rw [Disk.standby, he] at h
    split_ifs at h <;> rcases h with h | h <;> simp at h
  | some u =>
    rw [Disk.standby, he] at h
    cases hst : s.staged <;> rw [hst] at h <;> simp at h <;> rw [← h] <;> exact he

/-- The tier the selection chain picks from the status string of a
verified power state is always strictly deeper than that state. -/
theorem elig_depth : ∀ (ps : PowerState) (sata : Bool) (idle : Nat) (tmo : Timeouts) (t : Tier),
    eligibleTier (render ps) sata idle tmo = some t →
    ps.depth < t.toPowerState.depth := by
  intro ps sata idle tmo t h
  cases ps <;>
    (simp +decide [eligibleTier, render] at h;
     try split_ifs at h;
     all_goals
       first
         | (subst h; decide)
         | (rw [Option.some_inj] at h; subst h; decide)
         | (obtain ⟨-, h2⟩ := h; subst h2; decide)
         | (obtain ⟨-, -, h3⟩ := h; subst h3; decide)
         | (obtain ⟨-, -, -, h4⟩ := h; subst h4; decide)
         | simp at h)

/-- C4.  Monotonic depth invariant: for every device whose status string
reports a verified power state, every staged flag, every transport flag,
every idle duration and every timeout set, a single `Disk.standby`
decision cycle stages or issues only tiers whose depth is strictly
greater than the depth of the verified state — never a shallower or equal
(redundant) tier. -/
theorem C4_monotonic_depth :
    ∀ (ps : PowerState) (stg sata : Bool) (idle : Nat) (tmo : Timeouts) (t : Tier),
      ((Disk.standby ⟨render ps, stg, sata⟩ idle tmo).2.2 = Msg.stagedMsg t ∨
       (Disk.standby ⟨render ps, stg, sata⟩ idle tmo).2.2 = Msg.issuedMsg t) →
      ps.depth < t.toPowerState.depth := by
  intro ps stg sata idle tmo t h
  exact elig_depth ps sata idle tmo t (standby_msg_elig ⟨render ps, stg, sata⟩ idle tmo t h)

/-- C4, witness: from verified ACTIVE at 3700 s idle the cycle stages
STANDBY_Z, and depth 0 < depth 5. -/
theorem C4_monotonic_depth_witness :
    (Disk.standby ⟨render PowerState.ACTIVE, false, false⟩ 3700 defaultTimeouts).2.2 =
      Msg.stagedMsg Tier.STANDBY_Z ∧
    PowerState.ACTIVE.depth < Tier.STANDBY_Z.toPowerState.depth :=
  ⟨by decide,
   C4_monotonic_depth .ACTIVE false false 3700 defaultTimeouts .STANDBY_Z (Or.inl (by decide))⟩

/-- C5, counterexample.  A SAS device whose mode page reports
`idle_c_en = 0` (byte 15 = 0b110: IDLE_A and IDLE_B enabled, IDLE_C
disabled): the claim says a cycle that would select IDLE_C instead
selects IDLE_B, but `Disk.standby` never consults the enable flags and
stages IDLE_C anyway (status IDLE_A, idle 1801 s, default timeouts). -/
theorem C5_counterexample :
    (SAS.getPowerControl
        [0, 0, 0, 0, 0, 0, 0, 0, 0, 0, 0, 0, 0, 0, 0, 6, 0, 0, 0, 0, 0, 0, 0, 0, 0, 0, 0, 0,
         0, 0, 0, 0, 0, 0, 0, 0, 0, 0]).map PowerControl.idle_c_en = some 0 ∧
    (Disk.standby ⟨"IDLE_A", false, false⟩ 1801 defaultTimeouts).2.2 =
      Msg.stagedMsg Tier.IDLE_C ∧
    Msg.stagedMsg Tier.IDLE_C ≠ Msg.stagedMsg Tier.IDLE_B := by
  decide

/-- C5, amended.  The decision cycle does not consult the profile's
enable flags: for EVERY mode-sense buffer whose decoded page reports
`idle_c_en = 0`, a cycle whose idle duration and current state select
IDLE_C (status IDLE_A, idle in the IDLE_C band) still stages IDLE_C —
there is no skip to IDLE_B; the flags read by `_get_power_control` are
informational only. -/
theorem C5_amended_no_skip :
    ∀ (data : List Nat) (pc : PowerControl) (idle : Nat),
      SAS.getPowerControl data = some pc → pc.idle_c_en = 0 →
      defaultTimeouts.idle_c < idle → ¬ defaultTimeouts.standby < idle →
      (Disk.standby ⟨"IDLE_A", false, false⟩ idle defaultTimeouts).2.2 =
        Msg.stagedMsg Tier.IDLE_C := by
  intro data pc idle _ _ hc hs
  have he : eligibleTier "IDLE_A" false idle defaultTimeouts = some Tier.IDLE_C := by
    rw [eligibleTier]
    split_ifs with c1 c2
    · exact absurd c1.1 hs
    · rfl
    all_goals exact absurd ⟨hc, by decide, by decide, rfl, by decide⟩ c2
  rw [Disk.standby, he]
  rfl

/-- C5, amended, witness at the concrete buffer of the counterexample and
idle 1801 s. -/
theorem C5_amended_witness :
    SAS.getPowerControl
        [0, 0, 0, 0, 0, 0, 0, 0, 0, 0, 0, 0, 0, 0, 0, 6, 0, 0, 0, 0, 0, 0, 0, 0, 0, 0, 0, 0,
         0, 0, 0, 0, 0, 0, 0, 0, 0, 0] = some ⟨0, 0, 0, 1, 1, 0, 0, 0, 0, 0⟩ ∧
    (Disk.standby ⟨"IDLE_A", false, false⟩ 1801 defaultTimeouts).2.2 =
      Msg.stagedMsg Tier.IDLE_C :=
  ⟨by decide,
   C5_amended_no_skip
     [0, 0, 0, 0, 0, 0, 0, 0, 0, 0, 0, 0, 0, 0, 0, 6, 0, 0, 0, 0, 0, 0, 0, 0, 0, 0, 0, 0,
      0, 0, 0, 0, 0, 0, 0, 0, 0, 0] ⟨0, 0, 0, 1, 1, 0, 0, 0, 0, 0⟩ 1801
     (by decide) (by decide) (by decide) (by decide)⟩

/-- C1, counterexample.  `Disk.standby` records no `requested_state`:
with status ACTIVE, cycle 1 at 61 s idle stages IDLE_A (staged flag set,
no command); cycle 2 at 3700 s idle (time passed, no I/O, status
unchanged) finds the staged flag set and immediately issues the
STANDBY_Z command — a hardware command for a tier that was never the
previous cycle's staged tier. -/
theorem C1_counterexample :
    Disk.standby ⟨"ACTIVE", false, false⟩ 61 defaultTimeouts =
      (⟨"ACTIVE", true, false⟩, none, Msg.stagedMsg Tier.IDLE_A) ∧
    Disk.standby ⟨"ACTIVE", true, false⟩ 3700 defaultTimeouts =
      (⟨"ACTIVE", false, false⟩, some HwCmd.smartctlStandbyNow, Msg.issuedMsg Tier.STANDBY_Z) ∧
    Tier.STANDBY_Z ≠ Tier.IDLE_A := by
  decide

/-- C1, amended.  Two-phase commit as the code implements it: (1) a
hardware command is issued only when the staged flag is already true;
(2) when the selection chain picks the same tier T on two consecutive
cycles (status unchanged because staging runs no command and there is no
intervening I/O), the first cycle only sets the staged flag and returns
"T Staged" while the second issues exactly T's hardware command, clears
the flag and returns "T Issued"; (3) once the device's status reports T
itself, the selection chain can never pick T again, so later cycles
neither stage nor recommit T.  The commit phase checks only the staged
flag — the committed tier is whichever tier is eligible in the committing
cycle, which the counterexample shows may differ from the tier staged the
cycle before. -/
theorem C1_amended_two_phase :
    (∀ (s : DiskState) (idle : Nat) (tmo : Timeouts) (c : HwCmd),
      (Disk.standby s idle tmo).2.1 = some c → s.staged = true) ∧
    (∀ (ps : PowerState) (sata : Bool) (i1 i2 : Nat) (tmo : Timeouts) (t : Tier),
      eligibleTier (render ps) sata i1 tmo = some t →
      eligibleTier (render ps) sata i2 tmo = some t →
      Disk.standby ⟨render ps, false, sata⟩ i1 tmo =
        (⟨render ps, true, sata⟩, none, Msg.stagedMsg t) ∧
      Disk.standby ⟨render ps, true, sata⟩ i2 tmo =
        (⟨render ps, false, sata⟩, some (cmdFor t), Msg.issuedMsg t)) ∧
    (∀ (t : Tier) (sata : Bool) (idle : Nat) (tmo : Timeouts),
      eligibleTier (render t.toPowerState) sata idle tmo ≠ some t) := by
  refine ⟨?_, ?_, ?_⟩
  · intro s idle tmo c h
    cases he : eligibleTier s.status s.sata idle tmo with
    | none =>
      rw [Disk.standby, he] at h
      split_ifs at h <;> simp at h
    | some u =>
      rw [Disk.standby, he] at h
      cases hst : s.staged with
      | true => rfl
      | false => rw [hst] at h; simp at h
  · intro ps sata i1 i2 tmo t h1 h2
    exact ⟨by rw [Disk.standby, h1]; rfl, by rw [Disk.standby, h2]; rfl⟩
  · intro t sata idle tmo h
    cases t <;>
      (rw [eligibleTier] at h;
       split_ifs at h with c1 c2 c3 c4 <;>
         first
           | exact absurd c1.2 (by decide)
           | exact absurd c2.2.2.1 (by decide)
           | exact absurd c3.2.2.2.1 (by decide)
           | exact absurd c4.2.1 (by decide)
           | simp at h)

/-- C1, amended, witness: the STANDBY_Z transition from ACTIVE at 3700 s
idle — stage on cycle 1, single command on cycle 2, selection can never
re-pick STANDBY_Z once the status reports it. -/
theorem C1_amended_witness :
    (⟨"ACTIVE", true, false⟩ : DiskState).staged = true ∧
    (Disk.standby ⟨render PowerState.ACTIVE, false, false⟩ 3700 defaultTimeouts =
       (⟨render PowerState.ACTIVE, true, false⟩, none, Msg.stagedMsg Tier.STANDBY_Z) ∧
     Disk.standby ⟨render PowerState.ACTIVE, true, false⟩ 3700 defaultTimeouts =
       (⟨render PowerState.ACTIVE, false, false⟩, some (cmdFor Tier.STANDBY_Z),
        Msg.issuedMsg Tier.STANDBY_Z)) ∧
    eligibleTier (render Tier.STANDBY_Z.toPowerState) false 3700 defaultTimeouts ≠
      some Tier.STANDBY_Z :=
  ⟨C1_amended_two_phase.1 ⟨"ACTIVE", true, false⟩ 3700 defaultTimeouts
     HwCmd.smartctlStandbyNow (by decide),
   C1_amended_two_phase.2.1 .ACTIVE false 3700 3700 defaultTimeouts .STANDBY_Z
     (by decide) (by decide),
   C1_amended_two_phase.2.2 .STANDBY_Z false 3700 defaultTimeouts⟩

/-- C6, counterexample.  `Diskstats.load` catches only
`FileNotFoundError`: a file whose contents `json.loads` rejects raises an
uncaught `JSONDecodeError`, and a present record missing the
`time_last_check` key raises an uncaught `KeyError` — both fatal to the
load, contradicting "never raises a fatal error". -/
theorem C6_counterexample :
    Diskstats.load LoadInput.malformed = Except.error PyError.jsonDecodeError ∧
    Diskstats.load (LoadInput.parsed [("sda", ⟨none, some 0, some 0⟩)]) =
      Except.error (PyError.keyError "time_last_check") ∧
    Except.error PyError.jsonDecodeError ≠
      (Except.ok [] : Except PyError (List (String × ℚ × Nat × Nat))) := by
  refine ⟨rfl, rfl, by simp⟩

/-- C6, amended.  A missing persisted-state file is tolerated (no records
loaded, no error); a complete record is loaded with its three values; a
device without a loaded record is created fresh — idle since process
start (`now`) with zero counters; but a malformed file propagates an
uncaught `JSONDecodeError` — only the missing-file case is non-fatal. -/
theorem C6_amended_load :
    Diskstats.load LoadInput.fileMissing = Except.ok [] ∧
    (∀ entries : List (String × ℚ × Nat × Nat),
      Diskstats.load (LoadInput.parsed
          (entries.map fun e => (e.1, ⟨some e.2.1, some e.2.2.1, some e.2.2.2⟩))) =
        Except.ok entries) ∧
    Diskstats.load LoadInput.malformed = Except.error PyError.jsonDecodeError ∧
    (∀ (loaded : List (String × ℚ × Nat × Nat)) (now : ℚ) (name : String),
      loaded.lookup name = none → Diskstats.diskFor loaded now name = (now, 0, 0)) := by
  refine ⟨rfl, ?_, rfl, ?_⟩
  · intro entries
    induction entries with
    | nil => rfl
    | cons e rest ih =>
      simp only [List.map_cons, Diskstats.load, loadRecords] at ih ⊢
      rw [ih]
      rfl
  · intro loaded now name h
    rw [Diskstats.diskFor, h]

/-- C6, amended, witness: one complete record loads, and a device absent
from the loaded records starts fresh at `now` with zero counters. -/
theorem C6_amended_witness :
    Diskstats.load (LoadInput.parsed [("sda", ⟨some 5, some 1, some 2⟩)]) =
      Except.ok [("sda", (5 : ℚ), 1, 2)] ∧
    ([("sda", ((5 : ℚ), 1, 2))] : List (String × ℚ × Nat × Nat)).lookup "sdb" = none ∧
    Diskstats.diskFor [("sda", (5 : ℚ), 1, 2)] 7 "sdb" = (7, 0, 0) :=
  ⟨by simpa using C6_amended_load.2.1 [("sda", (5 : ℚ), 1, 2)],
   by rfl,
   C6_amended_load.2.2.2 [("sda", (5 : ℚ), 1, 2)] 7 "sdb" (by rfl)⟩

end Spindown
